import Mathlib

/-!
# Verification of the datalad-metalad dump/extract core

This file gives a shallow embedding of the metadata dump pipeline
(`datalad_metalad/dump.py`), the extraction pipeline
(`datalad_metalad/extract.py`) and the pipeline-element value type
(`datalad_metalad/pipelineelement.py`), together with theorems about the
properties stated in the specification.

External collaborators (the `dataladmetadatamodel` package: lazily mapped
metadata objects, the tree search engine, the metadata URL parser, and the
extractor base classes) are not part of the repository sources; they are
modelled from the specification's description of their contracts
(spec sections 3, 4.1, 4.2 and 6), as noted at each such definition.
-/

namespace Metalad

/-! ## Python value model

Python `dict`s are modelled as association lists of string keys; a key
lookup returns the value of the *last* binding so that dictionary merges
(`{**a, **b}`) and assignments (`d[k] = v`) are modelled by list append. -/

/-- A Python value as it occurs in the metadata records of this code base. -/
inductive PyVal where
  | str (s : String)
  | num (n : Nat)
  | uuid (n : Nat)
  | path (segments : List String)
  | dict (entries : List (String × PyVal))
  | list (elems : List PyVal)

/-- A Python dictionary with string keys. -/
abbrev Dict := List (String × PyVal)

/-- Last-binding lookup in an association list: models Python dictionary
lookup under the append-merge representation of dictionaries. -/
def lookupLast {α : Type} : List (String × α) → String → Option α
  | [], _ => none
  | (k, v) :: rest, key =>
    match lookupLast rest key with
    | some r => some r
    | none => if k = key then some v else none

/-- Python dictionary update `d[k] = v` under the append-merge model. -/
def dictSet (d : Dict) (k : String) (v : PyVal) : Dict := d ++ [(k, v)]


/-! ## UUIDs and paths -/

/-- A Python `uuid.UUID`: a 128-bit integer.  Only the integer value and the
canonical string rendering are relevant to the claims. -/
structure PyUUID where
  val : Nat
  deriving DecidableEq

/-- One hexadecimal digit character. -/
def hexDigit (n : Nat) : Char :=
  if n < 10 then Char.ofNat (48 + n) else Char.ofNat (87 + n)

/-- The 32 zero-padded hexadecimal digits of a UUID value, most significant
first (Python: `"%032x" % self.int`). -/
def uuidHex32 (n : Nat) : List Char :=
  (List.range 32).map (fun i => hexDigit (n / 16 ^ (31 - i) % 16))

/-- The canonical string form of a UUID, as produced by Python
`str(uuid.UUID)`: 32 hex digits in the 8-4-4-4-12 hyphenated layout. -/
def uuidStr (u : PyUUID) : String :=
  let h := uuidHex32 u.val
  String.mk (h.take 8 ++ ['-'] ++ (h.drop 8).take 4 ++ ['-'] ++
    (h.drop 12).take 4 ++ ['-'] ++ (h.drop 16).take 4 ++ ['-'] ++ h.drop 20)


/-- A metadata path (`dataladmetadatamodel.metadatapath.MetadataPath`),
modelled from the spec: an ordered sequence of posix path segments; the
empty sequence denotes the dataset itself (`MetadataPath("")`). -/
abbrev MetadataPath := List String

/-- String rendering of a metadata path (segments joined by `/`). -/
def pathStr (p : MetadataPath) : String := String.intercalate "/" p

/-- A dataset identifier as handled by the dump pipeline: usually a UUID,
but `dump_from_dataset_tree` substitutes the literal string `"<unknown>"`
when no root dataset record exists. -/
inductive DatasetId where
  | uuid (u : PyUUID)
  | str (s : String)
  deriving DecidableEq

/-- Python `str()` applied to a dataset identifier. -/
def DatasetId.pyStr : DatasetId → String
  | .uuid u => uuidStr u
  | .str s => s

/-! ## The lazily mapped metadata model

Modelled from the spec (section 3, "Lazy-loadable node contract"):
every composite metadata object supports `ensure_mapped() -> bool`
(returns `True` iff this very call performed the load, i.e. iff the object
was not resident before the call) and `purge()` (releases the content).
Each object below carries its residency state at traversal entry in the
`mapped` field; the traversal functions call `ensure_mapped` at most once
per object and restore residency before returning, so `ensure_mapped`'s
return value is `!mapped`. -/

/-- An extractor run instance
(`dataladmetadatamodel.metadata.MetadataInstance`), modelled from the spec:
`{time_stamp, author_name, author_email, configuration: {version,
parameter}, metadata_content}`. -/
structure MetadataInstance where
  time_stamp : Nat
  author_name : String
  author_email : String
  configuration_version : String
  configuration_parameter : Dict
  metadata_content : PyVal

/-- A `Metadata` object: a lazily mapped collection of extractor runs,
mapping extractor names to instance lists (spec section 3). -/
structure Metadata where
  mapped : Bool
  extractor_runs : List (String × List MetadataInstance)

/-- One result yielded by the external tree search engine when searching a
file tree (spec section 4.2): either a structural match carrying no
metadata (`None`), a directory node (`MTreeNode`), or a file `Metadata`
object. -/
inductive SearchResult where
  | missing
  | dirNode
  | fileMetadata (m : Metadata)

/-- A file tree (`MetadataRootRecord.file_tree`), modelled from the spec:
lazily mapped, with named child nodes; `searchResults` is the sequence the
external `MTreeSearch.search_pattern` yields for the traversal's pattern
and recursion flag. -/
structure FileTree where
  mapped : Bool
  child_node_names : List String
  searchResults : List (MetadataPath × SearchResult)

/-- A per-dataset metadata root record
(`dataladmetadatamodel.metadatarootrecord.MetadataRootRecord`), modelled
from the spec: dataset identity plus the two lazy payloads. -/
structure MetadataRootRecord where
  mapped : Bool
  dataset_identifier : PyUUID
  dataset_version : String
  dataset_level_metadata : Option Metadata
  file_tree : Option FileTree

/-! ## Load/purge instrumentation

The traversal functions additionally emit an event trace recording every
`ensure_mapped()` call (with its boolean result) and every `purge()` call.
Object identities are scoped to one traversal call: the metadata root
record, its dataset-level metadata, its file tree, and the i-th search
result's metadata object. -/

/-- Identity of a lazily mapped object within one traversal. -/
inductive ObjId where
  | mrr
  | dlm
  | ftree
  | meta (i : Nat)
  deriving DecidableEq

/-- A load/purge event. -/
inductive Event where
  | ensureMapped (o : ObjId) (returned : Bool)
  | purge (o : ObjId)
  deriving DecidableEq

/-- Number of `ensure_mapped()` calls on `o` that returned `True`. -/
def countTrue : List Event → ObjId → Nat
  | [], _ => 0
  | .ensureMapped o' b :: rest, o =>
    (if o' = o ∧ b = true then 1 else 0) + countTrue rest o
  | .purge _ :: rest, o => countTrue rest o

/-- Number of `purge()` calls on `o`. -/
def countPurge : List Event → ObjId → Nat
  | [], _ => 0
  | .ensureMapped _ _ :: rest, o => countPurge rest o
  | .purge o' :: rest, o => (if o' = o then 1 else 0) + countPurge rest o


/-! ## Log events

`dump.py` and `extract.py` log through a module logger; each logging call
site is modelled by one structured event carrying the data interpolated
into its message. -/

/-- One logging call, by call site (`lgr.error` / `lgr.warning` /
`lgr.debug` in `dump.py` and `extract.py`). -/
inductive LogEvent where
  /-- `dump.py` `show_dataset_metadata`: "no dataset level metadata ...". -/
  | warningNoDatasetLevelMetadata (id : DatasetId) (version : String)
  /-- `dump.py` `show_file_tree_metadata`: "pattern ... does not match any
  element in file-tree ...". -/
  | warningPatternNoMatch (pattern : MetadataPath) (id : PyUUID)
      (version : String)
  /-- `dump.py` `dump_from_dataset_tree`: "could not locate metadata for
  version ...". -/
  | errorTreeVersionNotFound (version : String)
  /-- `dump.py` `dump_from_dataset_tree`: "no root dataset record found
  ...". -/
  | debugNoRootDatasetRecord (version : String)
  /-- `dump.py` `dump_from_dataset_tree`: "search pattern ... does not
  match any dataset ...". -/
  | errorDatasetPatternNoMatch (pattern : MetadataPath) (id : DatasetId)
      (version : String)
  /-- `dump.py` `dump_from_uuid_set`: "could not locate metadata for
  dataset with UUID ...". -/
  | errorUUIDNotFound (uuid : PyUUID)
  /-- `dump.py` `dump_from_uuid_set`: "could not locate metadata for
  version ... for dataset with UUID ...". -/
  | errorUUIDVersionNotFound (version : String) (uuid : PyUUID)
  /-- `extract.py` `ensure_content_availability`: "cannot make content of
  ... available ...". -/
  | errorContentUnavailable (path : String)
  /-- `extract.py` `ensure_content_availability`: "requested content ...
  available". -/
  | debugContentAvailable (path : String)
  /-- `extract.py` `get_extractor_class`: "Using metadata extractor ...". -/
  | debugUsingExtractor (name : String) (dist : String)
  /-- `extract.py` `get_extractor_class`: "Metadata extractor ... overrides
  ...". -/
  | warningExtractorOverridden (name : String) (winningDist : String)
      (ignoredDist : String)
  deriving DecidableEq

/-! ## Dump records (`dump.py`) -/

/-- The metadata store location given to the dump functions: a string
(remote or local) or a filesystem path.  Whether a string location is
remote is decided by the external `Reference.is_remote`; modelled from
the spec, which uses it for path rendering only, by recording the verdict
in the constructor. -/
inductive MetadataStore where
  | remoteStr (s : String)
  | localStr (s : String)
  | localPath (p : String)
  deriving DecidableEq

/-- Rendering of `metadata_store / element_path` for a result record
(`dump.py` `_create_result_record`).  Filesystem absolutization
(`Path.absolute()`) is modelled as the joined path itself. -/
def storeElementPath (metadata_store : MetadataStore)
    (element_path : MetadataPath) : String :=
  match metadata_store with
  | .remoteStr s => s ++ ":/" ++ pathStr element_path
  | .localStr s => s ++ "/" ++ pathStr element_path
  | .localPath p => p ++ "/" ++ pathStr element_path

/-- A result record as returned by `_create_result_record` in `dump.py`. -/
structure ResultRecord where
  status : String
  action : String
  backend : String
  metadata_source : MetadataStore
  type : String
  metadata : Dict
  path : String

/-- `dump.py` `_create_result_record`. -/
def _create_result_record (mapper : String) (metadata_store : MetadataStore)
    (metadata_record : Dict) (element_path : MetadataPath)
    (report_type : String) : ResultRecord :=
  { status := "ok"
    action := "meta_dump"
    backend := mapper
    metadata_source := metadata_store
    type := report_type
    metadata := metadata_record
    path := storeElementPath metadata_store element_path }

/-- `dump.py` `_get_common_properties`. -/
def _get_common_properties (root_dataset_identifier : DatasetId)
    (root_dataset_version : String)
    (metadata_root_record : MetadataRootRecord)
    (dataset_path : MetadataPath) : Dict :=
  (if dataset_path ≠ ([] : MetadataPath) then
    [("root_dataset_id", PyVal.str root_dataset_identifier.pyStr),
     ("root_dataset_version", PyVal.str root_dataset_version),
     ("dataset_path", PyVal.str (pathStr dataset_path))]
  else [])
  ++ [("dataset_id",
        PyVal.str (uuidStr metadata_root_record.dataset_identifier)),
      ("dataset_version", PyVal.str metadata_root_record.dataset_version)]

/-- `dump.py` `_get_instance_properties`. -/
def _get_instance_properties (extractor_name : String)
    (inst : MetadataInstance) : Dict :=
  [("extraction_time", PyVal.num inst.time_stamp),
   ("agent_name", PyVal.str inst.author_name),
   ("agent_email", PyVal.str inst.author_email),
   ("extractor_name", PyVal.str extractor_name),
   ("extractor_version", PyVal.str inst.configuration_version),
   ("extraction_parameter", PyVal.dict inst.configuration_parameter),
   ("extracted_metadata", inst.metadata_content)]

/-- Output of one traversal (`show_dataset_metadata` or
`show_file_tree_metadata`): the load/purge event trace, the logging calls
and the yielded result records, in order. -/
structure TraversalOutput where
  events : List Event
  logs : List LogEvent
  records : List ResultRecord

/-- `dump.py` `show_dataset_metadata`. -/
def show_dataset_metadata (mapper : String) (metadata_store : MetadataStore)
    (root_dataset_identifier : DatasetId) (root_dataset_version : String)
    (dataset_path : MetadataPath)
    (metadata_root_record : MetadataRootRecord) : TraversalOutput :=
  let purge_metadata_root_record := !metadata_root_record.mapped
  let ev0 := [Event.ensureMapped .mrr purge_metadata_root_record]
  let purgeTail :=
    if purge_metadata_root_record then [Event.purge ObjId.mrr] else []
  match metadata_root_record.dataset_level_metadata with
  | none =>
    { events := ev0 ++ purgeTail
      logs := [.warningNoDatasetLevelMetadata root_dataset_identifier
                 root_dataset_version]
      records := [] }
  | some dataset_level_metadata =>
    let common_properties := _get_common_properties root_dataset_identifier
      root_dataset_version metadata_root_record dataset_path
    let records :=
      (dataset_level_metadata.extractor_runs.map (fun run =>
        run.2.map (fun inst =>
          _create_result_record mapper metadata_store
            ([("type", PyVal.str "dataset")] ++ common_properties ++
              _get_instance_properties run.1 inst)
            dataset_path "dataset"))).flatten
    { events := ev0 ++ purgeTail
      logs := []
      records := records }

/-- The `for path, metadata, _ in tree_search.search_pattern(...)` loop of
`show_file_tree_metadata`, with `i` the position of the current search
result (used as the object identity of its metadata object in the event
trace). -/
def processSearchResults (mapper : String) (metadata_store : MetadataStore)
    (root_dataset_identifier : DatasetId) (root_dataset_version : String)
    (dataset_path : MetadataPath)
    (metadata_root_record : MetadataRootRecord) (i : Nat) :
    List (MetadataPath × SearchResult) → List Event × List ResultRecord
  | [] => ([], [])
  | (path, sr) :: rest =>
    let restOut := processSearchResults mapper metadata_store
      root_dataset_identifier root_dataset_version dataset_path
      metadata_root_record (i + 1) rest
    match sr with
    | .missing => restOut
    | .dirNode => restOut
    | .fileMetadata metadata =>
      let common_properties := _get_common_properties
        root_dataset_identifier root_dataset_version metadata_root_record
        dataset_path
      let purge_metadata := !metadata.mapped
      let records :=
        (metadata.extractor_runs.map (fun run =>
          run.2.map (fun inst =>
            _create_result_record mapper metadata_store
              ([("type", PyVal.str "file"),
                ("path", PyVal.str (pathStr path))] ++ common_properties ++
                _get_instance_properties run.1 inst)
              (dataset_path ++ path) "dataset"))).flatten
      ([Event.ensureMapped (.meta i) purge_metadata] ++
        (if purge_metadata then [Event.purge (ObjId.meta i)] else []) ++
        restOut.1,
       records ++ restOut.2)

/-- `dump.py` `show_file_tree_metadata`. -/
def show_file_tree_metadata (mapper : String)
    (metadata_store : MetadataStore)
    (root_dataset_identifier : DatasetId) (root_dataset_version : String)
    (dataset_path : MetadataPath)
    (metadata_root_record : MetadataRootRecord)
    (search_pattern : MetadataPath) (_recursive : Bool) : TraversalOutput :=
  let purge_mrr := !metadata_root_record.mapped
  let purge_dataset_level_metadata :=
    match metadata_root_record.dataset_level_metadata with
    | some dlm => !dlm.mapped
    | none => false
  let purge_file_tree :=
    match metadata_root_record.file_tree with
    | some ft => !ft.mapped
    | none => false
  let evHead := [Event.ensureMapped .mrr purge_mrr] ++
    (match metadata_root_record.dataset_level_metadata with
     | some _ =>
       [Event.ensureMapped ObjId.dlm purge_dataset_level_metadata]
     | none => []) ++
    (match metadata_root_record.file_tree with
     | some _ => [Event.ensureMapped ObjId.ftree purge_file_tree]
     | none => [])
  let purgeTail :=
    (if purge_file_tree then [Event.purge ObjId.ftree] else []) ++
    (if purge_dataset_level_metadata then [Event.purge ObjId.dlm] else []) ++
    (if purge_mrr then [Event.purge ObjId.mrr] else [])
  match metadata_root_record.file_tree with
  | none =>
    -- `if not file_tree or not file_tree.mtree.child_nodes:` early return
    { events := evHead ++ purgeTail, logs := [], records := [] }
  | some file_tree =>
    if file_tree.child_node_names.isEmpty then
      { events := evHead ++ purgeTail, logs := [], records := [] }
    else
      let loopOut := processSearchResults mapper metadata_store
        root_dataset_identifier root_dataset_version dataset_path
        metadata_root_record 0 file_tree.searchResults
      let logs :=
        if file_tree.searchResults.length = 0 then
          [LogEvent.warningPatternNoMatch search_pattern
            metadata_root_record.dataset_identifier
            metadata_root_record.dataset_version]
        else []
      { events := evHead ++ loopOut.1 ++ purgeTail
        logs := logs
        records := loopOut.2 }

/-! ## Dump drivers (`dump.py`)

The two index objects (`TreeVersionList`, `UUIDSet`) and the parsed
metadata URLs are external collaborators, modelled from the spec
(sections 3 and 4.1).  The tree search engine's output for the dataset
pattern is modelled as the `searchResults` field of the dataset tree: the
search with `item_indicator = datalad_root_record_name` yields nodes that
carry a root-record child, so each result is recorded as the matched path
together with that child.  Log/purge events of the drivers themselves are
not traced (claim P1 is about the two traversal functions). -/

/-- A dataset tree for one version, modelled from the spec: the root
metadata root record (at `MetadataPath("")`, if any) and the search
results the external `MTreeSearch` yields for the query's dataset-path
pattern. -/
structure DatasetTree where
  root_mrr : Option MetadataRootRecord
  searchResults : List (MetadataPath × MetadataRootRecord)

/-- The tree version list, modelled from the spec: maps version strings to
`(timestamp, DatasetTree)`. -/
structure TreeVersionList where
  entries : List (String × Nat × DatasetTree)

/-- `TreeVersionList.versions()`. -/
def TreeVersionList.versions (tvl : TreeVersionList) : List String :=
  tvl.entries.map (·.1)

/-- `TreeVersionList.get_dataset_tree`; a `none` result models the
`KeyError` raised on an unknown version. -/
def TreeVersionList.get_dataset_tree (tvl : TreeVersionList)
    (version : String) : Option (Nat × DatasetTree) :=
  (tvl.entries.find? (fun e => e.1 = version)).map (·.2)

/-- A tree-addressed metadata URL
(`pathutils.metadataurlparser.TreeMetadataURL`), modelled from the spec:
`{dataset_path, version, local_path}`. -/
structure TreeMetadataURL where
  dataset_path : Option MetadataPath
  version : Option String
  local_path : MetadataPath

/-- The per-version loop of `dump_from_dataset_tree`. -/
def processTreeVersions (mapper : String) (metadata_store : MetadataStore)
    (tvl : TreeVersionList) (metadata_url : TreeMetadataURL)
    (recursive : Bool) : List String → List LogEvent × List ResultRecord
  | [] => ([], [])
  | version :: rest =>
    let restOut := processTreeVersions mapper metadata_store tvl
      metadata_url recursive rest
    match tvl.get_dataset_tree version with
    | none =>
      (LogEvent.errorTreeVersionNotFound version :: restOut.1, restOut.2)
    | some (_time_stamp, dataset_tree) =>
      let ctx :=
        match dataset_tree.root_mrr with
        | none =>
          -- no root dataset record: "<unknown>" identifier, version itself
          (version, DatasetId.str "<unknown>",
           [LogEvent.debugNoRootDatasetRecord version])
        | some root_mrr =>
          (root_mrr.dataset_version, DatasetId.uuid root_mrr.dataset_identifier,
           [])
      let perResult := dataset_tree.searchResults.map (fun res =>
        let o1 := show_dataset_metadata mapper metadata_store ctx.2.1 ctx.1
          res.1 res.2
        let o2 := show_file_tree_metadata mapper metadata_store ctx.2.1
          ctx.1 res.1 res.2 metadata_url.local_path recursive
        (o1.logs ++ o2.logs, o1.records ++ o2.records))
      let noMatchLog :=
        if dataset_tree.searchResults.length = 0 then
          [LogEvent.errorDatasetPatternNoMatch
            (metadata_url.dataset_path.getD []) ctx.2.1 ctx.1]
        else []
      (ctx.2.2 ++ (perResult.map (·.1)).flatten ++ noMatchLog ++ restOut.1,
       (perResult.map (·.2)).flatten ++ restOut.2)

/-- `dump.py` `dump_from_dataset_tree`. -/
def dump_from_dataset_tree (mapper : String)
    (metadata_store : MetadataStore) (tree_version_list : TreeVersionList)
    (metadata_url : Option TreeMetadataURL) (recursive : Bool) :
    List LogEvent × List ResultRecord :=
  -- Normalize path representation
  let url : TreeMetadataURL :=
    match metadata_url with
    | none => ⟨some [], none, []⟩
    | some u => if u.dataset_path = none then ⟨some [], none, []⟩ else u
  -- Get specified version, if none is specified, take all versions
  let requested_versions :=
    match url.version with
    | some v => [v]
    | none => tree_version_list.versions
  processTreeVersions mapper metadata_store tree_version_list url recursive
    requested_versions

/-- A per-UUID version list, modelled from the spec: maps version strings
to `(timestamp, dataset_path_at_that_version, MetadataRootRecord)`. -/
structure VersionList where
  entries : List (String × Nat × MetadataPath × MetadataRootRecord)

/-- `VersionList.versions()`. -/
def VersionList.versions (vl : VersionList) : List String :=
  vl.entries.map (·.1)

/-- `VersionList.get_versioned_element`; a `none` result models the
`KeyError` raised on an unknown version. -/
def VersionList.get_versioned_element (vl : VersionList)
    (version : String) : Option (Nat × MetadataPath × MetadataRootRecord) :=
  (vl.entries.find? (fun e => e.1 = version)).map (·.2)

/-- The UUID set, modelled from the spec: maps dataset UUIDs to version
lists. -/
structure UUIDSet where
  entries : List (PyUUID × VersionList)

/-- `UUIDSet.get_version_list`; a `none` result models the `KeyError`
raised on an unknown UUID. -/
def UUIDSet.get_version_list (us : UUIDSet) (uuid : PyUUID) :
    Option VersionList :=
  (us.entries.find? (fun e => e.1 = uuid)).map (·.2)

/-- A UUID-addressed metadata URL
(`pathutils.metadataurlparser.UUIDMetadataURL`), modelled from the spec:
`{uuid, version, local_path}`. -/
structure UUIDMetadataURL where
  uuid : PyUUID
  version : Option String
  local_path : MetadataPath

/-- The per-version loop of `dump_from_uuid_set`. -/
def processUUIDVersions (mapper : String) (metadata_store : MetadataStore)
    (version_list : VersionList) (path : UUIDMetadataURL)
    (recursive : Bool) : List String → List LogEvent × List ResultRecord
  | [] => ([], [])
  | dataset_version :: rest =>
    let restOut := processUUIDVersions mapper metadata_store version_list
      path recursive rest
    match version_list.get_versioned_element dataset_version with
    | none =>
      (LogEvent.errorUUIDVersionNotFound dataset_version path.uuid ::
        restOut.1, restOut.2)
    | some (_time_stamp, dataset_path, metadata_root_record) =>
      let o1 := show_dataset_metadata mapper metadata_store
        (DatasetId.uuid path.uuid) dataset_version dataset_path
        metadata_root_record
      let o2 := show_file_tree_metadata mapper metadata_store
        (DatasetId.uuid path.uuid) dataset_version dataset_path
        metadata_root_record path.local_path recursive
      (o1.logs ++ o2.logs ++ restOut.1, o1.records ++ o2.records ++ restOut.2)

/-- `dump.py` `dump_from_uuid_set`. -/
def dump_from_uuid_set (mapper : String) (metadata_store : MetadataStore)
    (uuid_set : UUIDSet) (path : UUIDMetadataURL) (recursive : Bool) :
    List LogEvent × List ResultRecord :=
  match uuid_set.get_version_list path.uuid with
  | none => ([LogEvent.errorUUIDNotFound path.uuid], [])
  | some version_list =>
    let requested_dataset_version :=
      match path.version with
      | some v => [v]
      | none => version_list.versions
    processUUIDVersions mapper metadata_store version_list path recursive
      requested_dataset_version

/-- A parsed metadata URL (`MetadataURLParser.parse()`), modelled from the
spec (section 4.1): either tree-addressed or UUID-addressed. -/
inductive ParsedMetadataURL where
  | tree (t : Option TreeMetadataURL)
  | uuid (u : UUIDMetadataURL)

/-- `dump.py` `Dump.__call__` after parameter resolution: the two
top-level index objects come from the external
`get_top_level_metadata_objects` (either may be absent), the URL from the
external parser.  An `Except.error` models the raised
`NoMetadataStoreFound`. -/
def Dump_call (backend : String) (metadata_store_path : MetadataStore)
    (tree_version_list : Option TreeVersionList)
    (uuid_set : Option UUIDSet) (metadata_url : ParsedMetadataURL)
    (recursive : Bool) :
    Except String (List LogEvent × List ResultRecord) :=
  -- We require both entry points to exist for valid metadata
  match tree_version_list, uuid_set with
  | some tvl, some us =>
    match metadata_url with
    | .tree t =>
      .ok (dump_from_dataset_tree backend metadata_store_path tvl t
        recursive)
    | .uuid u =>
      .ok (dump_from_uuid_set backend metadata_store_path us u recursive)
  | _, _ => .error "No valid datalad metadata found in: "

/-! ## Extraction pipeline (`extract.py`)

The extractor base classes live in `datalad_metalad/extractors/base.py`,
which is not among the sources; the capability interface of a modern
extractor (output category declaration, content requirement, version,
extraction result) is modelled from the spec (sections 4.5 and 6). -/

/-- Modelled from the spec: the data output category a modern extractor
declares; only `IMMEDIATE` is supported, the spec's failure scenario names
`CACHED` as a non-immediate category. -/
inductive DataOutputCategory where
  | IMMEDIATE
  | CACHED
  deriving DecidableEq

/-- Modelled from the spec: the result object a modern extractor's
`extract()` returns — success flag, immediate data, and the mutable
datalad result dict the pipeline completes. -/
structure ExtractorResult where
  extraction_success : Bool
  datalad_result_dict : Dict
  immediate_data : PyVal

/-- Modelled from the spec: a modern (capability-interface) extractor as
the extraction pipeline sees it after construction: its declared output
category, its version, whether it requires file content, and the result
its `extract()` call produces. -/
structure ModernExtractor where
  data_output_category : DataOutputCategory
  get_version : String
  is_content_required : Bool
  extract_result : ExtractorResult

/-- `extract.py` `ExtractionParameter` (only the fields the embedded
functions read). -/
structure ExtractionParameter where
  source_dataset_id : PyUUID
  source_dataset_version : String
  local_source_object_path : String
  extractor_name : String
  extractor_arguments : Dict
  file_tree_path : MetadataPath
  agent_name : String
  agent_email : String

/-- `extract.py` `perform_file_metadata_extraction`.  The wall-clock
`time.time()` taken at normalization time is passed in as `now`; the
raised `NotImplementedError` is the `Except.error` case. -/
def perform_file_metadata_extraction (ep : ExtractionParameter)
    (extractor : ModernExtractor) (now : Nat) :
    Except String (List Dict) :=
  if extractor.data_output_category ≠ DataOutputCategory.IMMEDIATE then
    .error "Output category not supported"
  else
    let result := extractor.extract_result
    let d := dictSet result.datalad_result_dict "action"
      (PyVal.str "meta_extract")
    let d := dictSet d "path" (PyVal.str ep.local_source_object_path)
    let d :=
      if result.extraction_success then
        dictSet d "metadata_record" (PyVal.dict
          [("type", PyVal.str "file"),
           ("dataset_id", PyVal.uuid ep.source_dataset_id.val),
           ("dataset_version", PyVal.str ep.source_dataset_version),
           ("path", PyVal.path ep.file_tree_path),
           ("extractor_name", PyVal.str ep.extractor_name),
           ("extractor_version", PyVal.str extractor.get_version),
           ("extraction_parameter", PyVal.dict ep.extractor_arguments),
           ("extraction_time", PyVal.num now),
           ("agent_name", PyVal.str ep.agent_name),
           ("agent_email", PyVal.str ep.agent_email),
           ("extracted_metadata", result.immediate_data)])
      else d
    .ok [d]

/-- `extract.py` `perform_dataset_metadata_extraction`. -/
def perform_dataset_metadata_extraction (ep : ExtractionParameter)
    (extractor : ModernExtractor) (now : Nat) :
    Except String (List Dict) :=
  if extractor.data_output_category ≠ DataOutputCategory.IMMEDIATE then
    .error "Output category not supported"
  else
    let result := extractor.extract_result
    let d := dictSet result.datalad_result_dict "action"
      (PyVal.str "meta_extract")
    let d := dictSet d "path" (PyVal.str ep.local_source_object_path)
    let d :=
      if result.extraction_success then
        dictSet d "metadata_record" (PyVal.dict
          [("type", PyVal.str "dataset"),
           ("dataset_id", PyVal.uuid ep.source_dataset_id.val),
           ("dataset_version", PyVal.str ep.source_dataset_version),
           ("extractor_name", PyVal.str ep.extractor_name),
           ("extractor_version", PyVal.str extractor.get_version),
           ("extraction_parameter", PyVal.dict ep.extractor_arguments),
           ("extraction_time", PyVal.num now),
           ("agent_name", PyVal.str ep.agent_name),
           ("agent_email", PyVal.str ep.agent_email),
           ("extracted_metadata", result.immediate_data)])
      else d
    .ok [d]

/-- A plugin registration as returned by the external
`pkg_resources.iter_entry_points` (spec section 6: the plugin-resolution
collaborator): the distribution name and the class the entry point loads
(represented by an opaque tag). -/
structure EntryPoint where
  dist_project_name : String
  loaded_class : Nat
  deriving DecidableEq

/-- `extract.py` `get_extractor_class`.  The entry-point list the plugin
collaborator yields for `extractor_name` is an explicit argument; the
raised `ValueError` is the `Except.error` case.  Returns the loaded entry
point together with the logging calls made. -/
def get_extractor_class (extractor_name : String)
    (entry_points : List EntryPoint) :
    Except String (EntryPoint × List LogEvent) :=
  match entry_points.getLast? with
  | none =>
    .error ("Requested metadata extractor " ++ extractor_name ++
      " not available")
  | some entry_point =>
    let ignored_entry_points := entry_points.dropLast
    .ok (entry_point,
      LogEvent.debugUsingExtractor extractor_name
        entry_point.dist_project_name ::
      ignored_entry_points.map (fun ig =>
        LogEvent.warningExtractorOverridden extractor_name
          entry_point.dist_project_name ig.dist_project_name))

/-- One result yielded by the host dataset's content retrieval
(`dataset.get(...)`, spec section 6); only the `status` field is read
(`result.get("status", "")`). -/
structure GetResult where
  status : String
  deriving DecidableEq

/-- `extract.py` `FileInfo` (only the fields the embedded functions
read). -/
structure FileInfo where
  path : String
  intra_dataset_path : String

/-- The `for result in extractor.dataset.get(...)` loop of
`ensure_content_availability`: stops with an error log at the first
`status == "error"` result, otherwise falls through to the debug log. -/
def contentAvailabilityLoop (file_info : FileInfo) :
    List GetResult → List LogEvent
  | [] => [LogEvent.debugContentAvailable file_info.intra_dataset_path]
  | r :: rest =>
    if r.status = "error" then
      [LogEvent.errorContentUnavailable file_info.path]
    else
      contentAvailabilityLoop file_info rest

/-- `extract.py` `ensure_content_availability`.  The stream the host
dataset's `get` produces is an explicit argument. -/
def ensure_content_availability (extractor : ModernExtractor)
    (file_info : FileInfo) (get_results : List GetResult) :
    List LogEvent :=
  if extractor.is_content_required then
    contentAvailabilityLoop file_info get_results
  else []

/-- `extract.py` `do_file_extraction`, modern-extractor branch (the
`issubclass(ep.extractor_class, MetadataExtractorBase)` path): obtain the
file info, construct the extractor, ensure content availability, then
perform the extraction.  The legacy dispatch branches are not modelled
(no claim concerns them). -/
def do_file_extraction_modern (ep : ExtractionParameter)
    (extractor : ModernExtractor) (file_info : FileInfo)
    (get_results : List GetResult) (now : Nat) :
    List LogEvent × Except String (List Dict) :=
  (ensure_content_availability extractor file_info get_results,
   perform_file_metadata_extraction ep extractor now)

/-! ## Pipeline elements (`pipelineelement.py`) -/

/-- `pipelineelement.py` `ResultState`. -/
inductive ResultState where
  | SUCCESS
  | FAILURE
  | STOP
  deriving DecidableEq

/-- The `.name` of a `ResultState` member. -/
def ResultState.name : ResultState → String
  | .SUCCESS => "SUCCESS"
  | .FAILURE => "FAILURE"
  | .STOP => "STOP"

/-- `pipelineelement.py` `PipelineElementState`. -/
inductive PipelineElementState where
  | CONTINUE
  | STOP
  deriving DecidableEq

/-- The `.name` of a `PipelineElementState` member. -/
def PipelineElementState.name : PipelineElementState → String
  | .CONTINUE => "CONTINUE"
  | .STOP => "STOP"

/-- `pipelineelement.py` `PipelineResult`: a state, an optional base
error dictionary and a message (empty by default). -/
structure PipelineResult where
  state : ResultState
  base_error : Option Dict
  message : String

/-- `pipelineelement.py` `PipelineResult.to_json`. -/
def PipelineResult.to_json (r : PipelineResult) : Dict :=
  [("state", PyVal.str r.state.name)] ++
  (match r.base_error with
   | some e => [("error", PyVal.dict e)]
   | none => []) ++
  (if r.message ≠ "" then [("message", PyVal.str r.message)] else [])

/-- Python `str()` of a list of `PipelineResult` values (the dataclass
list repr; its precise text is a Python runtime detail, rendered here
deterministically from the same data). -/
def pyStrResultList (rs : List PipelineResult) : String :=
  "[" ++ String.intercalate ", "
    (rs.map (fun r => "PipelineResult(state=ResultState." ++
      r.state.name ++ ")")) ++ "]"

/-- `pipelineelement.py` `PipelineElement` (the `_dynamic` scratch data
does not participate in `to_json` and is omitted). -/
structure PipelineElement where
  _result : List (String × List PipelineResult)
  state : PipelineElementState

/-- `pipelineelement.py` `PipelineElement.get_result`. -/
def PipelineElement.get_result (e : PipelineElement)
    (result_type : String) : Option (List PipelineResult) :=
  lookupLast e._result result_type

/-- `pipelineelement.py` `PipelineElement.to_json`.  The final
`json_obj["result"]["path"] = str(self._result["path"])` raises `KeyError`
when no "path" result was stored; that raise is the `Except.error`
case. -/
def PipelineElement.to_json (e : PipelineElement) :
    Except String PyVal :=
  let inner := (e._result.filter (fun kv => kv.1 ∉ ["path"])).map
    (fun kv => (kv.1, PyVal.list (kv.2.map (fun r => PyVal.dict r.to_json))))
  match lookupLast e._result "path" with
  | none => .error "KeyError: path"
  | some v =>
    .ok (PyVal.dict
      [("state", PyVal.str e.state.name),
       ("result", PyVal.dict (inner ++
         [("path", PyVal.str (pyStrResultList v))]))])

/-- The entries of the "result" sub-dictionary of a successful
`PipelineElement.to_json`, for stating lookup properties of the
serialization. -/
def toJsonResultEntries (e : PipelineElement) : List (String × PyVal) :=
  (e._result.filter (fun kv => kv.1 ∉ ["path"])).map
    (fun kv => (kv.1, PyVal.list (kv.2.map (fun r => PyVal.dict r.to_json))))
  ++ [("path",
        PyVal.str (pyStrResultList ((lookupLast e._result "path").getD [])))]

/-! ## Concrete fixtures used by witnesses and counterexamples -/

/-- Fixture: an extraction parameter. -/
def c9ep : ExtractionParameter :=
  ⟨⟨1⟩, "v0", "/ds/f.txt", "core_file", [], ["f.txt"], "agent", "a@x"⟩

/-- Fixture: a modern file extractor that requires content. -/
def c9ext : ModernExtractor :=
  { data_output_category := .IMMEDIATE
    get_version := "0.0.1"
    is_content_required := true
    extract_result :=
      { extraction_success := true
        datalad_result_dict := [("type", PyVal.str "file")]
        immediate_data := PyVal.str "m" } }

/-- Fixture: the file info for the extraction target. -/
def c9fi : FileInfo := ⟨"/ds/f.txt", "f.txt"⟩

/-- Fixture: a metadata instance. -/
def c2inst : MetadataInstance := ⟨0, "a", "a@x", "1", [], PyVal.str "m"⟩

/-- Fixture: a metadata root record with dataset-level metadata only. -/
def c2mrr : MetadataRootRecord :=
  { mapped := true
    dataset_identifier := ⟨5⟩
    dataset_version := "v1"
    dataset_level_metadata := some ⟨true, [("core", [c2inst])]⟩
    file_tree := none }

/-- Fixture: an empty tree version list (present but unused). -/
def c2tvl : TreeVersionList := ⟨[]⟩

/-- Fixture: a UUID set holding one dataset with one version. -/
def c2us : UUIDSet := ⟨[(⟨5⟩, ⟨[("v1", 0, [], c2mrr)]⟩)]⟩

/-- Fixture: the UUID metadata URL addressing that version. -/
def c2url : UUIDMetadataURL := ⟨⟨5⟩, some "v1", []⟩

/-- Fixture: the output of the dump entry point on the C2 fixture. -/
def c2out : List LogEvent × List ResultRecord :=
  match Dump_call "git" (MetadataStore.localPath "/s") (some c2tvl)
    (some c2us) (ParsedMetadataURL.uuid c2url) false with
  | .ok o => o
  | .error _ => ([], [])

/-- Fixture: the single record the C2 fixture produces. -/
def c2rec : ResultRecord :=
  c2out.2.headD ⟨"", "", "", MetadataStore.localPath "", "", [], ""⟩

/-- Fixture: a metadata instance for the file-tree record. -/
def c3inst : MetadataInstance := ⟨0, "a", "a@x", "1", [], PyVal.str "m"⟩

/-- Fixture: a mapped file `Metadata` object with one extractor run. -/
def c3meta : Metadata := ⟨true, [("core_file", [c3inst])]⟩

/-- Fixture: a metadata root record whose file tree matches one file. -/
def c3mrr : MetadataRootRecord :=
  { mapped := true
    dataset_identifier := ⟨3⟩
    dataset_version := "v1"
    dataset_level_metadata := none
    file_tree := some ⟨true, ["file.txt"],
      [(["file.txt"], SearchResult.fileMetadata c3meta)]⟩ }

/-- Fixture: the single record `show_file_tree_metadata` yields on the C3
fixture. -/
def c3rec : ResultRecord :=
  (show_file_tree_metadata "git" (MetadataStore.localPath "/s")
    (DatasetId.uuid ⟨3⟩) "v1" [] c3mrr ["file.txt"] false).records.headD
    ⟨"", "", "", MetadataStore.localPath "", "", [], ""⟩

/-- Fixture: an empty UUID set (every UUID is unknown in it). -/
def c5usEmpty : UUIDSet := ⟨[]⟩

/-- Fixture: a UUID metadata URL for an unknown UUID. -/
def c5url : UUIDMetadataURL := ⟨⟨9⟩, none, []⟩

/-- Fixture: a metadata root record without payloads. -/
def c5mrr : MetadataRootRecord :=
  { mapped := true
    dataset_identifier := ⟨7⟩
    dataset_version := "v1"
    dataset_level_metadata := none
    file_tree := none }

/-- Fixture: a version list knowing only version "v1". -/
def c5vl : VersionList := ⟨[("v1", 0, [], c5mrr)]⟩

/-- Fixture: a UUID metadata URL for the dataset of `c5vl`. -/
def c5url2 : UUIDMetadataURL := ⟨⟨7⟩, none, []⟩

/-- Fixture: a dataset tree with no root record and no matches. -/
def c5dt : DatasetTree := ⟨none, []⟩

/-- Fixture: a tree version list knowing only version "v1". -/
def c5tvl : TreeVersionList := ⟨[("v1", 0, c5dt)]⟩

/-- Fixture: a tree metadata URL for the root dataset. -/
def c5turl : TreeMetadataURL := ⟨some [], none, []⟩

/-- Fixture for the C4 counterexample: an empty tree version list. -/
def c4tvl : TreeVersionList := ⟨[]⟩

/-- The search results of a metadata root record's file tree (empty when
there is no file tree). -/
def fileTreeSearchResults (mrr : MetadataRootRecord) :
    List (MetadataPath × SearchResult) :=
  match mrr.file_tree with
  | some ft => ft.searchResults
  | none => []

/-- Fixture: a pipeline result. -/
def c10r1 : PipelineResult := ⟨ResultState.SUCCESS, none, ""⟩

/-- Fixture: a second pipeline result. -/
def c10r2 : PipelineResult := ⟨ResultState.FAILURE, none, "broken"⟩

/-- Fixture: the stored "path" result list. -/
def c10paths : List PipelineResult := [c10r1]

/-- Fixture: a pipeline element holding a "path" result and one other
result list. -/
def c10e : PipelineElement :=
  ⟨[("path", c10paths), ("other", [c10r2])], PipelineElementState.CONTINUE⟩

/-- Fixture: a pipeline element without a "path" result. -/
def c10noPath : PipelineElement :=
  ⟨[("other", [c10r2])], PipelineElementState.CONTINUE⟩

/-! ## General lemmas -/

theorem lookupLast_append {α : Type} (a b : List (String × α)) (k : String) :
    lookupLast (a ++ b) k =
      match lookupLast b k with
      | some v => some v
      | none => lookupLast a k := by
  induction a with
  | nil => cases h : lookupLast b k <;> simp [lookupLast, h]
  | cons hd tl ih =>
    obtain ⟨k', v'⟩ := hd
    have step : lookupLast ((⟨k', v'⟩ :: tl) ++ b) k
        = match lookupLast (tl ++ b) k with
          | some r => some r
          | none => if k' = k then some v' else none := rfl
    have step2 : lookupLast (⟨k', v'⟩ :: tl) k
        = match lookupLast tl k with
          | some r => some r
          | none => if k' = k then some v' else none := rfl
    rw [step, ih, step2]
    cases lookupLast b k <;> cases lookupLast tl k <;> rfl

theorem uuidHex32_length (n : Nat) : (uuidHex32 n).length = 32 := by
  simp [uuidHex32]

theorem string_mk_length (l : List Char) : (String.mk l).length = l.length := rfl

theorem uuidStr_length (u : PyUUID) : (uuidStr u).length = 36 := by
  have h := uuidHex32_length u.val
  simp [uuidStr, string_mk_length, List.length_take, List.length_drop, h]

theorem uuidStr_ne_empty (u : PyUUID) : uuidStr u ≠ "" := by
  intro h
  have h36 := uuidStr_length u
  rw [h] at h36
  simp [String.length] at h36

theorem countTrue_append (a b : List Event) (o : ObjId) :
    countTrue (a ++ b) o = countTrue a o + countTrue b o := by
  induction a with
  | nil => simp [countTrue]
  | cons hd tl ih => cases hd <;> simp [countTrue, ih] <;> omega

theorem countPurge_append (a b : List Event) (o : ObjId) :
    countPurge (a ++ b) o = countPurge a o + countPurge b o := by
  induction a with
  | nil => simp [countPurge]
  | cons hd tl ih => cases hd <;> simp [countPurge, ih] <;> omega

/-! ## Dictionary lookup lemmas for the dump record shapes -/

theorem instance_props_no_dataset_id (n : String) (i : MetadataInstance) :
    lookupLast (_get_instance_properties n i) "dataset_id" = none := by
  simp [_get_instance_properties, lookupLast]

theorem instance_props_no_type (n : String) (i : MetadataInstance) :
    lookupLast (_get_instance_properties n i) "type" = none := by
  simp [_get_instance_properties, lookupLast]

theorem instance_props_no_path (n : String) (i : MetadataInstance) :
    lookupLast (_get_instance_properties n i) "path" = none := by
  simp [_get_instance_properties, lookupLast]

theorem common_props_dataset_id (rid : DatasetId) (rv : String)
    (mrr : MetadataRootRecord) (dp : MetadataPath) :
    lookupLast (_get_common_properties rid rv mrr dp) "dataset_id" =
      some (PyVal.str (uuidStr mrr.dataset_identifier)) := by
  by_cases h : dp = [] <;> simp [_get_common_properties, h, lookupLast]

theorem common_props_no_type (rid : DatasetId) (rv : String)
    (mrr : MetadataRootRecord) (dp : MetadataPath) :
    lookupLast (_get_common_properties rid rv mrr dp) "type" = none := by
  by_cases h : dp = [] <;> simp [_get_common_properties, h, lookupLast]

theorem common_props_no_path (rid : DatasetId) (rv : String)
    (mrr : MetadataRootRecord) (dp : MetadataPath) :
    lookupLast (_get_common_properties rid rv mrr dp) "path" = none := by
  by_cases h : dp = [] <;> simp [_get_common_properties, h, lookupLast]

/-- Lookup of `dataset_id` in a full dump metadata record (a fixed head,
then the common properties, then the instance properties). -/
theorem metadata_record_dataset_id (head : Dict) (rid : DatasetId)
    (rv : String) (mrr : MetadataRootRecord) (dp : MetadataPath)
    (n : String) (i : MetadataInstance) :
    lookupLast (head ++ _get_common_properties rid rv mrr dp ++
        _get_instance_properties n i) "dataset_id" =
      some (PyVal.str (uuidStr mrr.dataset_identifier)) := by
  rw [lookupLast_append, instance_props_no_dataset_id,
    lookupLast_append, common_props_dataset_id]

/-- C7. The common properties contain the three path-relative annotation
keys `root_dataset_id`, `root_dataset_version`, `dataset_path` exactly for
non-root queries (`dataset_path` different from the empty `MetadataPath`),
and always contain `dataset_id` and `dataset_version`. -/
theorem C7_common_properties_root_annotation (rid : DatasetId)
    (rv : String) (mrr : MetadataRootRecord) (dp : MetadataPath) :
    ((lookupLast (_get_common_properties rid rv mrr dp)
        "root_dataset_id").isSome ↔ dp ≠ []) ∧
    ((lookupLast (_get_common_properties rid rv mrr dp)
        "root_dataset_version").isSome ↔ dp ≠ []) ∧
    ((lookupLast (_get_common_properties rid rv mrr dp)
        "dataset_path").isSome ↔ dp ≠ []) ∧
    lookupLast (_get_common_properties rid rv mrr dp) "dataset_id" =
      some (PyVal.str (uuidStr mrr.dataset_identifier)) ∧
    lookupLast (_get_common_properties rid rv mrr dp) "dataset_version" =
      some (PyVal.str mrr.dataset_version) := by
  by_cases h : dp = [] <;> simp [_get_common_properties, h, lookupLast]

/-- C6. Modern-extractor extraction (file-level and dataset-level) raises
`NotImplementedError` exactly when the declared data output category is
not `IMMEDIATE` — yielding no record in that case — and proceeds to a
yielded record when it is `IMMEDIATE`. -/
theorem C6_output_category_immediate_only (ep : ExtractionParameter)
    (extractor : ModernExtractor) (now : Nat) :
    ((perform_file_metadata_extraction ep extractor now).isOk ↔
      extractor.data_output_category = DataOutputCategory.IMMEDIATE) ∧
    ((perform_dataset_metadata_extraction ep extractor now).isOk ↔
      extractor.data_output_category = DataOutputCategory.IMMEDIATE) ∧
    ((perform_file_metadata_extraction ep extractor now).isOk = false →
      ∀ d, perform_file_metadata_extraction ep extractor now ≠
        Except.ok d) ∧
    ((perform_dataset_metadata_extraction ep extractor now).isOk = false →
      ∀ d, perform_dataset_metadata_extraction ep extractor now ≠
        Except.ok d) := by
  refine ⟨?_, ?_, ?_, ?_⟩
  · by_cases h : extractor.data_output_category = DataOutputCategory.IMMEDIATE <;>
      simp [perform_file_metadata_extraction, h, Except.isOk, Except.toBool]
  · by_cases h : extractor.data_output_category = DataOutputCategory.IMMEDIATE <;>
      simp [perform_dataset_metadata_extraction, h, Except.isOk, Except.toBool]
  · intro h d hd
    rw [hd] at h
    simp [Except.isOk, Except.toBool] at h
  · intro h d hd
    rw [hd] at h
    simp [Except.isOk, Except.toBool] at h

/-- C8. Extractor resolution by name fails with `ValueError` exactly when
no registration exists; otherwise the last-registered entry point wins and
each overridden registration is logged as a warning. -/
theorem C8_extractor_resolution (extractor_name : String)
    (entry_points : List EntryPoint) :
    ((∃ msg, get_extractor_class extractor_name entry_points =
        Except.error msg) ↔ entry_points = []) ∧
    (∀ h : entry_points ≠ [],
      get_extractor_class extractor_name entry_points =
        Except.ok (entry_points.getLast h,
          LogEvent.debugUsingExtractor extractor_name
            (entry_points.getLast h).dist_project_name ::
          entry_points.dropLast.map (fun ig =>
            LogEvent.warningExtractorOverridden extractor_name
              (entry_points.getLast h).dist_project_name
              ig.dist_project_name))) := by
  constructor
  · constructor
    · intro ⟨msg, hmsg⟩
      by_contra hne
      rw [get_extractor_class,
        List.getLast?_eq_getLast _ hne] at hmsg
      simp at hmsg
    · intro h
      subst h
      exact ⟨_, rfl⟩
  · intro h
    rw [get_extractor_class, List.getLast?_eq_getLast _ h]

/-- Witness for C8: two registrations for the same name resolve to the
second one with one override warning and no error. -/
theorem C8_extractor_resolution_witness :
    get_extractor_class "core" [⟨"distA", 1⟩, ⟨"distB", 2⟩] =
      Except.ok (⟨"distB", 2⟩,
        [LogEvent.debugUsingExtractor "core" "distB",
         LogEvent.warningExtractorOverridden "core" "distB" "distA"]) := by
  have h := (C8_extractor_resolution "core"
    [⟨"distA", 1⟩, ⟨"distB", 2⟩]).2 (by simp)
  simpa using h


/-- Counterexample to C4 as stated: with the tree version list present and
only the UUID set missing (so *not* both index objects missing), the dump
entry point still raises `NoMetadataStoreFound` instead of proceeding. -/
theorem C4_counterexample :
    (Dump_call "git" (MetadataStore.localPath "/store") (some c4tvl) none
        (ParsedMetadataURL.tree none) false).isOk = false ∧
    (some c4tvl : Option TreeVersionList) ≠ none := by
  constructor
  · rfl
  · simp

/-- C4 (amended).  The dump entry point raises `NoMetadataStoreFound`
exactly when at least one of the two top-level index objects is missing,
aborting without any record; when both are present, dumping proceeds. -/
theorem C4_amended_no_metadata_store (backend : String)
    (metadata_store_path : MetadataStore)
    (tree_version_list : Option TreeVersionList)
    (uuid_set : Option UUIDSet) (metadata_url : ParsedMetadataURL)
    (recursive : Bool) :
    (((Dump_call backend metadata_store_path tree_version_list uuid_set
        metadata_url recursive).isOk = false) ↔
      (tree_version_list = none ∨ uuid_set = none)) ∧
    (∀ out, Dump_call backend metadata_store_path tree_version_list
        uuid_set metadata_url recursive = Except.ok out →
      tree_version_list ≠ none ∧ uuid_set ≠ none) := by
  constructor
  · cases tree_version_list <;> cases uuid_set <;>
      cases metadata_url <;> simp [Dump_call, Except.isOk, Except.toBool]
  · intro out hout
    cases tree_version_list <;> cases uuid_set <;>
      simp_all [Dump_call]

theorem contentAvailabilityLoop_error (file_info : FileInfo)
    (get_results : List GetResult)
    (h : ∃ r ∈ get_results, r.status = "error") :
    contentAvailabilityLoop file_info get_results =
      [LogEvent.errorContentUnavailable file_info.path] := by
  induction get_results with
  | nil => simp at h
  | cons hd tl ih =>
    by_cases hhd : hd.status = "error"
    · simp [contentAvailabilityLoop, hhd]
    · rcases h with ⟨r, hr, hstat⟩
      rcases List.mem_cons.mp hr with heq | htl
      · exact absurd (heq ▸ hstat) hhd
      · simp [contentAvailabilityLoop, hhd, ih ⟨r, htl, hstat⟩]

/-- C9. When a file extractor requires content and the host dataset's
content retrieval reports an error for the target path,
`ensure_content_availability` just logs one error and returns, and the
file extraction invocation still proceeds to
`perform_file_metadata_extraction`. -/
theorem C9_content_unavailable_soft_fail (ep : ExtractionParameter)
    (extractor : ModernExtractor) (file_info : FileInfo)
    (get_results : List GetResult) (now : Nat)
    (hreq : extractor.is_content_required = true)
    (herr : ∃ r ∈ get_results, r.status = "error") :
    ensure_content_availability extractor file_info get_results =
      [LogEvent.errorContentUnavailable file_info.path] ∧
    (do_file_extraction_modern ep extractor file_info get_results now).2 =
      perform_file_metadata_extraction ep extractor now := by
  constructor
  · rw [ensure_content_availability, hreq]
    simpa using contentAvailabilityLoop_error file_info get_results herr
  · rfl

/-- Witness for C9: a content-requiring extractor whose content retrieval
stream reports an error. -/
theorem C9_content_unavailable_soft_fail_witness :
    c9ext.is_content_required = true ∧
    ensure_content_availability c9ext c9fi [⟨"ok"⟩, ⟨"error"⟩] =
      [LogEvent.errorContentUnavailable c9fi.path] ∧
    (do_file_extraction_modern c9ep c9ext c9fi [⟨"ok"⟩, ⟨"error"⟩] 7).2 =
      perform_file_metadata_extraction c9ep c9ext 7 := by
  have h := C9_content_unavailable_soft_fail c9ep c9ext c9fi
    [⟨"ok"⟩, ⟨"error"⟩] 7 (by rfl) (by decide)
  exact ⟨rfl, h.1, h.2⟩

theorem lookupLast_cons {α : Type} (k' : String) (v : α)
    (tl : List (String × α)) (k : String) :
    lookupLast ((k', v) :: tl) k =
      match lookupLast tl k with
      | some r => some r
      | none => if k' = k then some v else none := rfl

theorem lookupLast_toJson_inner (d : List (String × List PipelineResult))
    (k : String) (hk : k ≠ "path") :
    lookupLast ((d.filter (fun kv => kv.1 ∉ ["path"])).map
      (fun kv =>
        (kv.1, PyVal.list (kv.2.map (fun r => PyVal.dict r.to_json))))) k =
    (lookupLast d k).map
      (fun l => PyVal.list (l.map (fun r => PyVal.dict r.to_json))) := by
  induction d with
  | nil => simp [lookupLast]
  | cons hd tl ih =>
    obtain ⟨k', v⟩ := hd
    rw [lookupLast_cons]
    by_cases hp : k' = "path"
    · subst hp
      have hfil : ((("path", v) :: tl).filter
          (fun kv => kv.1 ∉ ["path"])) =
          tl.filter (fun kv => kv.1 ∉ ["path"]) := by
        simp [List.filter_cons]
      rw [hfil, ih]
      cases lookupLast tl k <;> simp [hk.symm]
    · have hfil2 : (((k', v) :: tl).filter
          (fun kv => kv.1 ∉ ["path"])) =
          (k', v) :: tl.filter (fun kv => kv.1 ∉ ["path"]) := by
        simp [List.filter_cons, hp]
      rw [hfil2, List.map_cons, lookupLast_cons, ih]
      cases lookupLast tl k <;> by_cases hkk : k' = k <;> simp [hkk]

/-- C10. `PipelineElement.to_json` succeeds exactly when a "path" result
has been stored (otherwise `KeyError`); on success the "path" result is
serialized as its string form and every other stored result list is
serialized element-wise through `PipelineResult.to_json`. -/
theorem C10_pipeline_element_to_json (e : PipelineElement) :
    (e.to_json.isOk = true ↔
      (lookupLast e._result "path").isSome = true) ∧
    (∀ v, lookupLast e._result "path" = some v →
      e.to_json = Except.ok (PyVal.dict
        [("state", PyVal.str e.state.name),
         ("result", PyVal.dict (toJsonResultEntries e))]) ∧
      lookupLast (toJsonResultEntries e) "path" =
        some (PyVal.str (pyStrResultList v)) ∧
      (∀ k l, k ≠ "path" → lookupLast e._result k = some l →
        lookupLast (toJsonResultEntries e) k =
          some (PyVal.list (l.map (fun r => PyVal.dict r.to_json))))) := by
  constructor
  · rw [PipelineElement.to_json]
    cases h : lookupLast e._result "path" <;>
      simp [h, Except.isOk, Except.toBool]
  · intro v hv
    refine ⟨?_, ?_, ?_⟩
    · rw [PipelineElement.to_json, hv]
      simp [toJsonResultEntries, hv]
    · rw [toJsonResultEntries, lookupLast_append, hv]
      simp [lookupLast]
    · intro k l hk hl
      rw [toJsonResultEntries, lookupLast_append]
      have hsingle : lookupLast [("path", PyVal.str (pyStrResultList
          ((lookupLast e._result "path").getD [])))] k = none := by
        simp [lookupLast, Ne.symm hk]
      rw [hsingle, lookupLast_toJson_inner e._result k hk, hl]
      simp

/-- Witness for C10: an element with a stored "path" result and one other
result list serializes; the lookups have the required forms. -/
theorem C10_pipeline_element_to_json_witness :
    c10e.to_json.isOk = true ∧
    lookupLast (toJsonResultEntries c10e) "path" =
      some (PyVal.str (pyStrResultList c10paths)) ∧
    lookupLast (toJsonResultEntries c10e) "other" =
      some (PyVal.list ([c10r2].map (fun r => PyVal.dict r.to_json))) ∧
    c10noPath.to_json.isOk = false := by
  have h2 := (C10_pipeline_element_to_json c10e).2 c10paths (by rfl)
  refine ⟨(C10_pipeline_element_to_json c10e).1.mpr (by rfl),
    h2.2.1, h2.2.2 "other" [c10r2] (by decide) (by rfl), ?_⟩
  have h1 := (C10_pipeline_element_to_json c10noPath).1
  cases hok : c10noPath.to_json.isOk
  · rfl
  · have := h1.mp hok
    simp [c10noPath, lookupLast] at this

theorem processSR_count_zero (mapper : String) (store : MetadataStore)
    (rid : DatasetId) (rv : String) (dp : MetadataPath)
    (mrr : MetadataRootRecord) :
    ∀ (rs : List (MetadataPath × SearchResult)) (i : Nat) (o : ObjId),
      (∀ j, o = ObjId.meta j → j < i) →
      countTrue
        (processSearchResults mapper store rid rv dp mrr i rs).1 o = 0 ∧
      countPurge
        (processSearchResults mapper store rid rv dp mrr i rs).1 o = 0 := by
  intro rs
  induction rs with
  | nil => intro i o _; simp [processSearchResults, countTrue, countPurge]
  | cons hd tl ih =>
    intro i o h
    obtain ⟨path, sr⟩ := hd
    have hmono : ∀ j, o = ObjId.meta j → j < i + 1 :=
      fun j hj => Nat.lt_succ_of_lt (h j hj)
    cases sr with
    | missing => simpa [processSearchResults] using ih (i + 1) o hmono
    | dirNode => simpa [processSearchResults] using ih (i + 1) o hmono
    | fileMetadata m =>
      have hne : ¬(ObjId.meta i = o) := by
        intro heq
        have := h i heq.symm
        omega
      have hrest := ih (i + 1) o hmono
      cases hq : m.mapped <;>
        simp [processSearchResults, countTrue_append, countPurge_append,
          countTrue, countPurge, hne, hq, hrest.1, hrest.2]

theorem processSR_count_balanced (mapper : String) (store : MetadataStore)
    (rid : DatasetId) (rv : String) (dp : MetadataPath)
    (mrr : MetadataRootRecord) :
    ∀ (rs : List (MetadataPath × SearchResult)) (i : Nat) (o : ObjId),
      countTrue (processSearchResults mapper store rid rv dp mrr i rs).1 o =
      countPurge (processSearchResults mapper store rid rv dp mrr i rs).1 o := by
  intro rs
  induction rs with
  | nil => intro i o; simp [processSearchResults, countTrue, countPurge]
  | cons hd tl ih =>
    intro i o
    obtain ⟨path, sr⟩ := hd
    cases sr with
    | missing => simpa [processSearchResults] using ih (i + 1) o
    | dirNode => simpa [processSearchResults] using ih (i + 1) o
    | fileMetadata m =>
      have hrest := ih (i + 1) o
      cases hq : m.mapped <;> by_cases hne : ObjId.meta i = o <;>
        simp [processSearchResults, countTrue_append, countPurge_append,
          countTrue, countPurge, hq, hne, hrest]

theorem processSR_count_le_one (mapper : String) (store : MetadataStore)
    (rid : DatasetId) (rv : String) (dp : MetadataPath)
    (mrr : MetadataRootRecord) :
    ∀ (rs : List (MetadataPath × SearchResult)) (i : Nat) (o : ObjId),
      countTrue
        (processSearchResults mapper store rid rv dp mrr i rs).1 o ≤ 1 := by
  intro rs
  induction rs with
  | nil => intro i o; simp [processSearchResults, countTrue]
  | cons hd tl ih =>
    intro i o
    obtain ⟨path, sr⟩ := hd
    cases sr with
    | missing => simpa [processSearchResults] using ih (i + 1) o
    | dirNode => simpa [processSearchResults] using ih (i + 1) o
    | fileMetadata m =>
      by_cases hne : ObjId.meta i = o
      · have hz := (processSR_count_zero mapper store rid rv dp mrr tl
          (i + 1) o (by intro j hj; rw [← hne] at hj; cases hj; omega)).1
        cases hq : m.mapped <;>
          simp [processSearchResults, countTrue_append, countTrue, hq,
            hne, hz]
      · have hrest := ih (i + 1) o
        cases hq : m.mapped <;>
          simp [processSearchResults, countTrue_append, countTrue, hq,
            hne] <;> omega

/-- C1. Purge balance: in every traversal performed by
`show_dataset_metadata` and by `show_file_tree_metadata` (early-return
branches included), each lazily mapped object receives exactly as many
`purge()` calls as it had `ensure_mapped()` calls returning `True` —
and at most one such call — so there is no leak and no double purge. -/
theorem C1_purge_balance :
    (∀ (mapper : String) (store : MetadataStore) (rid : DatasetId)
        (rv : String) (dp : MetadataPath) (mrr : MetadataRootRecord)
        (o : ObjId),
      countTrue (show_dataset_metadata mapper store rid rv dp mrr).events
          o =
        countPurge (show_dataset_metadata mapper store rid rv dp
          mrr).events o ∧
      countTrue (show_dataset_metadata mapper store rid rv dp mrr).events
          o ≤ 1) ∧
    (∀ (mapper : String) (store : MetadataStore) (rid : DatasetId)
        (rv : String) (dp : MetadataPath) (mrr : MetadataRootRecord)
        (pat : MetadataPath) (rec : Bool) (o : ObjId),
      countTrue (show_file_tree_metadata mapper store rid rv dp mrr pat
          rec).events o =
        countPurge (show_file_tree_metadata mapper store rid rv dp mrr
          pat rec).events o ∧
      countTrue (show_file_tree_metadata mapper store rid rv dp mrr pat
          rec).events o ≤ 1) := by
  constructor
  · intro mapper store rid rv dp mrr o
    cases h1 : mrr.dataset_level_metadata <;>
      cases hm : mrr.mapped <;> by_cases ho : ObjId.mrr = o <;>
        simp [show_dataset_metadata, h1, hm, ho, countTrue_append,
          countPurge_append, countTrue, countPurge]
  · intro mapper store rid rv dp mrr pat rec o
    have hbal := processSR_count_balanced mapper store rid rv dp mrr
    have hle := processSR_count_le_one mapper store rid rv dp mrr
    have hz := processSR_count_zero mapper store rid rv dp mrr
    cases h1 : mrr.dataset_level_metadata with
    | none =>
      cases h2 : mrr.file_tree with
      | none =>
        rcases o with _ | _ | _ | j <;> cases hm : mrr.mapped <;>
          simp [show_file_tree_metadata, h1, h2, hm, countTrue_append,
            countPurge_append, countTrue, countPurge]
      | some ft =>
        by_cases hemp : ft.child_node_names.isEmpty
        · rcases o with _ | _ | _ | j <;> cases hm : mrr.mapped <;>
            cases hf : ft.mapped <;>
            simp [show_file_tree_metadata, h1, h2, hm, hf, hemp,
              countTrue_append, countPurge_append, countTrue, countPurge]
        · rcases o with _ | _ | _ | j
          · have hz1 := hz ft.searchResults 0 ObjId.mrr
              (by intro j hj; cases hj)
            cases hm : mrr.mapped <;> cases hf : ft.mapped <;>
              simp [show_file_tree_metadata, h1, h2, hm, hf, hemp,
                countTrue_append, countPurge_append, countTrue,
                countPurge, hz1.1, hz1.2]
          · have hz1 := hz ft.searchResults 0 ObjId.dlm
              (by intro j hj; cases hj)
            cases hm : mrr.mapped <;> cases hf : ft.mapped <;>
              simp [show_file_tree_metadata, h1, h2, hm, hf, hemp,
                countTrue_append, countPurge_append, countTrue,
                countPurge, hz1.1, hz1.2]
          · have hz1 := hz ft.searchResults 0 ObjId.ftree
              (by intro j hj; cases hj)
            cases hm : mrr.mapped <;> cases hf : ft.mapped <;>
              simp [show_file_tree_metadata, h1, h2, hm, hf, hemp,
                countTrue_append, countPurge_append, countTrue,
                countPurge, hz1.1, hz1.2]
          · have hb1 := hbal ft.searchResults 0 (ObjId.meta j)
            have hl1 := hle ft.searchResults 0 (ObjId.meta j)
            cases hm : mrr.mapped <;> cases hf : ft.mapped <;>
              simp [show_file_tree_metadata, h1, h2, hm, hf, hemp,
                countTrue_append, countPurge_append, countTrue,
                countPurge, hb1, hl1] <;> omega
    | some dlm =>
      cases h2 : mrr.file_tree with
      | none =>
        rcases o with _ | _ | _ | j <;> cases hm : mrr.mapped <;>
          cases hdm : dlm.mapped <;>
          simp [show_file_tree_metadata, h1, h2, hm, hdm,
            countTrue_append, countPurge_append, countTrue, countPurge]
      | some ft =>
        by_cases hemp : ft.child_node_names.isEmpty
        · rcases o with _ | _ | _ | j <;> cases hm : mrr.mapped <;>
            cases hdm : dlm.mapped <;> cases hf : ft.mapped <;>
            simp [show_file_tree_metadata, h1, h2, hm, hdm, hf, hemp,
              countTrue_append, countPurge_append, countTrue, countPurge]
        · rcases o with _ | _ | _ | j
          · have hz1 := hz ft.searchResults 0 ObjId.mrr
              (by intro j hj; cases hj)
            cases hm : mrr.mapped <;> cases hdm : dlm.mapped <;>
              cases hf : ft.mapped <;>
              simp [show_file_tree_metadata, h1, h2, hm, hdm, hf, hemp,
                countTrue_append, countPurge_append, countTrue,
                countPurge, hz1.1, hz1.2]
          · have hz1 := hz ft.searchResults 0 ObjId.dlm
              (by intro j hj; cases hj)
            cases hm : mrr.mapped <;> cases hdm : dlm.mapped <;>
              cases hf : ft.mapped <;>
              simp [show_file_tree_metadata, h1, h2, hm, hdm, hf, hemp,
                countTrue_append, countPurge_append, countTrue,
                countPurge, hz1.1, hz1.2]
          · have hz1 := hz ft.searchResults 0 ObjId.ftree
              (by intro j hj; cases hj)
            cases hm : mrr.mapped <;> cases hdm : dlm.mapped <;>
              cases hf : ft.mapped <;>
              simp [show_file_tree_metadata, h1, h2, hm, hdm, hf, hemp,
                countTrue_append, countPurge_append, countTrue,
                countPurge, hz1.1, hz1.2]
          · have hb1 := hbal ft.searchResults 0 (ObjId.meta j)
            have hl1 := hle ft.searchResults 0 (ObjId.meta j)
            cases hm : mrr.mapped <;> cases hdm : dlm.mapped <;>
              cases hf : ft.mapped <;>
              simp [show_file_tree_metadata, h1, h2, hm, hdm, hf, hemp,
                countTrue_append, countPurge_append, countTrue,
                countPurge, hb1, hl1] <;> omega

/-- Every record yielded by `show_dataset_metadata` has the "ok" /
"meta_dump" shape and carries the UUID of its metadata root record as
`dataset_id`. -/
theorem mem_show_dataset_metadata_records (mapper : String)
    (store : MetadataStore) (rid : DatasetId) (rv : String)
    (dp : MetadataPath) (mrr : MetadataRootRecord) (r : ResultRecord)
    (hr : r ∈ (show_dataset_metadata mapper store rid rv dp mrr).records) :
    r.status = "ok" ∧ r.action = "meta_dump" ∧
    lookupLast r.metadata "dataset_id" =
      some (PyVal.str (uuidStr mrr.dataset_identifier)) := by
  cases h1 : mrr.dataset_level_metadata with
  | none => simp [show_dataset_metadata, h1] at hr
  | some dlm =>
    simp only [show_dataset_metadata, h1, List.mem_flatten,
      List.mem_map] at hr
    obtain ⟨_, ⟨run, _, rfl⟩, hr2⟩ := hr
    obtain ⟨inst, _, rfl⟩ := List.mem_map.mp hr2
    refine ⟨rfl, rfl, ?_⟩
    exact metadata_record_dataset_id _ rid rv mrr dp run.1 inst

/-- Every record yielded by the search-result loop of
`show_file_tree_metadata` has the "ok" / "meta_dump" shape, carries the
root record's UUID as `dataset_id`, is reported with top-level type
"dataset" (the `report_type` the code passes), inner metadata type
"file", and an inner metadata path equal to one of the matched relative
paths. -/
theorem mem_processSR_records (mapper : String) (store : MetadataStore)
    (rid : DatasetId) (rv : String) (dp : MetadataPath)
    (mrr : MetadataRootRecord) :
    ∀ (rs : List (MetadataPath × SearchResult)) (i : Nat)
      (r : ResultRecord),
      r ∈ (processSearchResults mapper store rid rv dp mrr i rs).2 →
      r.status = "ok" ∧ r.action = "meta_dump" ∧
      lookupLast r.metadata "dataset_id" =
        some (PyVal.str (uuidStr mrr.dataset_identifier)) ∧
      r.type = "dataset" ∧
      lookupLast r.metadata "type" = some (PyVal.str "file") ∧
      ∃ p m, (p, SearchResult.fileMetadata m) ∈ rs ∧
        lookupLast r.metadata "path" = some (PyVal.str (pathStr p)) := by
  intro rs
  induction rs with
  | nil => intro i r hr; simp [processSearchResults] at hr
  | cons hd tl ih =>
    intro i r hr
    obtain ⟨path, sr⟩ := hd
    cases sr with
    | missing =>
      obtain ⟨h1, h2, h3, h4, h5, p, m, hmem, h6⟩ :=
        ih (i + 1) r (by simpa [processSearchResults] using hr)
      exact ⟨h1, h2, h3, h4, h5, p, m, List.mem_cons_of_mem _ hmem, h6⟩
    | dirNode =>
      obtain ⟨h1, h2, h3, h4, h5, p, m, hmem, h6⟩ :=
        ih (i + 1) r (by simpa [processSearchResults] using hr)
      exact ⟨h1, h2, h3, h4, h5, p, m, List.mem_cons_of_mem _ hmem, h6⟩
    | fileMetadata m =>
      rw [processSearchResults] at hr
      rcases List.mem_append.mp hr with hleft | hright
      · simp only [List.mem_flatten, List.mem_map] at hleft
        obtain ⟨_, ⟨run, _, rfl⟩, hr2⟩ := hleft
        obtain ⟨inst, _, rfl⟩ := List.mem_map.mp hr2
        refine ⟨rfl, rfl,
          metadata_record_dataset_id _ rid rv mrr dp run.1 inst, rfl,
          ?_, path, m, List.mem_cons_self _ _, ?_⟩
        · show lookupLast ([("type", PyVal.str "file"),
            ("path", PyVal.str (pathStr path))] ++
            _get_common_properties rid rv mrr dp ++
            _get_instance_properties run.1 inst) "type" = _
          rw [lookupLast_append, instance_props_no_type,
            lookupLast_append, common_props_no_type]
          simp [lookupLast]
        · show lookupLast ([("type", PyVal.str "file"),
            ("path", PyVal.str (pathStr path))] ++
            _get_common_properties rid rv mrr dp ++
            _get_instance_properties run.1 inst) "path" = _
          rw [lookupLast_append, instance_props_no_path,
            lookupLast_append, common_props_no_path]
          simp [lookupLast]
      · obtain ⟨h1, h2, h3, h4, h5, p, m', hmem, h6⟩ :=
          ih (i + 1) r hright
        exact ⟨h1, h2, h3, h4, h5, p, m', List.mem_cons_of_mem _ hmem, h6⟩


/-- Every record yielded by `show_file_tree_metadata` has the "ok" /
"meta_dump" shape, the root record's UUID as `dataset_id`, top-level type
"dataset", inner type "file" and a matched relative path. -/
theorem mem_show_file_tree_metadata_records (mapper : String)
    (store : MetadataStore) (rid : DatasetId) (rv : String)
    (dp : MetadataPath) (mrr : MetadataRootRecord) (pat : MetadataPath)
    (rec : Bool) (r : ResultRecord)
    (hr : r ∈ (show_file_tree_metadata mapper store rid rv dp mrr pat
      rec).records) :
    r.status = "ok" ∧ r.action = "meta_dump" ∧
    lookupLast r.metadata "dataset_id" =
      some (PyVal.str (uuidStr mrr.dataset_identifier)) ∧
    r.type = "dataset" ∧
    lookupLast r.metadata "type" = some (PyVal.str "file") ∧
    ∃ p m, (p, SearchResult.fileMetadata m) ∈ fileTreeSearchResults mrr ∧
      lookupLast r.metadata "path" = some (PyVal.str (pathStr p)) := by
  cases h2 : mrr.file_tree with
  | none => simp [show_file_tree_metadata, h2] at hr
  | some ft =>
    by_cases hemp : ft.child_node_names.isEmpty
    · simp [show_file_tree_metadata, h2, hemp] at hr
    · have hr2 : r ∈ (processSearchResults mapper store rid rv dp mrr 0
          ft.searchResults).2 := by
        simpa [show_file_tree_metadata, h2, hemp] using hr
      obtain ⟨h1, h2', h3, h4, h5, p, m, hmem, h6⟩ :=
        mem_processSR_records mapper store rid rv dp mrr
          ft.searchResults 0 r hr2
      exact ⟨h1, h2', h3, h4, h5, p, m,
        by simpa [fileTreeSearchResults, h2] using hmem, h6⟩

/-- Every record produced by the per-version loop of
`dump_from_dataset_tree` has the "ok" / "meta_dump" shape and a UUID
string as `dataset_id`. -/
theorem mem_processTreeVersions_records (mapper : String)
    (store : MetadataStore) (tvl : TreeVersionList)
    (url : TreeMetadataURL) (rec : Bool) :
    ∀ (vs : List String) (r : ResultRecord),
      r ∈ (processTreeVersions mapper store tvl url rec vs).2 →
      r.status = "ok" ∧ r.action = "meta_dump" ∧
      ∃ u, lookupLast r.metadata "dataset_id" =
        some (PyVal.str (uuidStr u)) := by
  intro vs
  induction vs with
  | nil => intro r hr; simp [processTreeVersions] at hr
  | cons v rest ih =>
    intro r hr
    cases hv : tvl.get_dataset_tree v with
    | none =>
      exact ih r (by simpa [processTreeVersions, hv] using hr)
    | some td =>
      obtain ⟨ts, dt⟩ := td
      simp only [processTreeVersions, hv, List.map_map, List.mem_append,
        List.mem_flatten, List.mem_map, Function.comp_apply] at hr
      rcases hr with ⟨_, ⟨res, _, rfl⟩, hrr⟩ | hright
      · rcases List.mem_append.mp hrr with h1 | h2
        · obtain ⟨ha, hb, hc⟩ := mem_show_dataset_metadata_records
            mapper store _ _ res.1 res.2 r h1
          exact ⟨ha, hb, res.2.dataset_identifier, hc⟩
        · obtain ⟨ha, hb, hc, _⟩ := mem_show_file_tree_metadata_records
            mapper store _ _ res.1 res.2 url.local_path rec r h2
          exact ⟨ha, hb, res.2.dataset_identifier, hc⟩
      · exact ih r hright

/-- Every record produced by the per-version loop of
`dump_from_uuid_set` has the "ok" / "meta_dump" shape and a UUID string
as `dataset_id`. -/
theorem mem_processUUIDVersions_records (mapper : String)
    (store : MetadataStore) (vl : VersionList) (url : UUIDMetadataURL)
    (rec : Bool) :
    ∀ (vs : List String) (r : ResultRecord),
      r ∈ (processUUIDVersions mapper store vl url rec vs).2 →
      r.status = "ok" ∧ r.action = "meta_dump" ∧
      ∃ u, lookupLast r.metadata "dataset_id" =
        some (PyVal.str (uuidStr u)) := by
  intro vs
  induction vs with
  | nil => intro r hr; simp [processUUIDVersions] at hr
  | cons v rest ih =>
    intro r hr
    cases hv : vl.get_versioned_element v with
    | none =>
      exact ih r (by simpa [processUUIDVersions, hv] using hr)
    | some tde =>
      obtain ⟨ts, dpath, mrr⟩ := tde
      have hr2 : r ∈ (show_dataset_metadata mapper store
          (DatasetId.uuid url.uuid) v dpath mrr).records ++
          ((show_file_tree_metadata mapper store (DatasetId.uuid url.uuid)
            v dpath mrr url.local_path rec).records ++
           (processUUIDVersions mapper store vl url rec rest).2) := by
        simpa [processUUIDVersions, hv] using hr
      rcases List.mem_append.mp hr2 with h1 | h23
      · obtain ⟨ha, hb, hc⟩ := mem_show_dataset_metadata_records
          mapper store _ _ dpath mrr r h1
        exact ⟨ha, hb, mrr.dataset_identifier, hc⟩
      · rcases List.mem_append.mp h23 with h2 | h3
        · obtain ⟨ha, hb, hc, _⟩ := mem_show_file_tree_metadata_records
            mapper store _ _ dpath mrr url.local_path rec r h2
          exact ⟨ha, hb, mrr.dataset_identifier, hc⟩
        · exact ih r h3

/-- C2. Every record the dump entry point produces — dataset-level and
file-level, all built through `_create_result_record` — has status "ok",
action "meta_dump", and a non-empty `dataset_id` inside its metadata. -/
theorem C2_record_shape (backend : String)
    (metadata_store_path : MetadataStore)
    (tree_version_list : Option TreeVersionList)
    (uuid_set : Option UUIDSet) (metadata_url : ParsedMetadataURL)
    (recursive : Bool) (out : List LogEvent × List ResultRecord)
    (hout : Dump_call backend metadata_store_path tree_version_list
      uuid_set metadata_url recursive = Except.ok out) :
    ∀ r ∈ out.2, r.status = "ok" ∧ r.action = "meta_dump" ∧
      ∃ s, lookupLast r.metadata "dataset_id" = some (PyVal.str s) ∧
        s ≠ "" := by
  intro r hr
  cases tree_version_list with
  | none => simp [Dump_call] at hout
  | some tvl =>
    cases uuid_set with
    | none => simp [Dump_call] at hout
    | some us =>
      cases metadata_url with
      | tree t =>
        have hrec : r ∈ (dump_from_dataset_tree backend
            metadata_store_path tvl t recursive).2 := by
          have : out = dump_from_dataset_tree backend
              metadata_store_path tvl t recursive := by
            simpa [Dump_call] using hout.symm
          rw [← this]; exact hr
        have hmem : r ∈ (processTreeVersions backend metadata_store_path
            tvl _ recursive _).2 := hrec
        obtain ⟨ha, hb, u, hc⟩ := mem_processTreeVersions_records
          backend metadata_store_path tvl _ recursive _ r hmem
        exact ⟨ha, hb, uuidStr u, hc, uuidStr_ne_empty u⟩
      | uuid uurl =>
        have hrec : r ∈ (dump_from_uuid_set backend metadata_store_path
            us uurl recursive).2 := by
          have : out = dump_from_uuid_set backend metadata_store_path us
              uurl recursive := by
            simpa [Dump_call] using hout.symm
          rw [← this]; exact hr
        cases hv : us.get_version_list uurl.uuid with
        | none =>
          simp [dump_from_uuid_set, hv] at hrec
        | some vl =>
          have hmem : r ∈ (processUUIDVersions backend
              metadata_store_path vl uurl recursive
              (match uurl.version with
               | some v => [v]
               | none => vl.versions)).2 := by
            simpa [dump_from_uuid_set, hv] using hrec
          obtain ⟨ha, hb, u, hc⟩ := mem_processUUIDVersions_records
            backend metadata_store_path vl uurl recursive _ r hmem
          exact ⟨ha, hb, uuidStr u, hc, uuidStr_ne_empty u⟩

/-- Witness for C2: a concrete dump invocation producing one record with
the required shape. -/
theorem C2_record_shape_witness :
    Dump_call "git" (MetadataStore.localPath "/s") (some c2tvl)
      (some c2us) (ParsedMetadataURL.uuid c2url) false =
        Except.ok c2out ∧
    c2rec.status = "ok" ∧ c2rec.action = "meta_dump" ∧
    lookupLast c2rec.metadata "dataset_id" =
      some (PyVal.str (uuidStr ⟨5⟩)) ∧ uuidStr (⟨5⟩ : PyUUID) ≠ "" := by
  have hmem : c2rec ∈ c2out.2 := by
    rw [show c2out.2 = [c2rec] from rfl]
    exact List.mem_singleton_self _
  have h := C2_record_shape "git" (MetadataStore.localPath "/s")
    (some c2tvl) (some c2us) (ParsedMetadataURL.uuid c2url) false c2out
    rfl c2rec hmem
  exact ⟨rfl, h.1, h.2.1, rfl, uuidStr_ne_empty _⟩

/-- Counterexample to C3 as stated: a file-tree traversal over one
matched file yields a record whose *top-level* type field is "dataset",
not "file" (`show_file_tree_metadata` passes `report_type="dataset"` to
`_create_result_record`). -/
theorem C3_counterexample :
    ((show_file_tree_metadata "git" (MetadataStore.localPath "/s")
        (DatasetId.uuid ⟨3⟩) "v1" [] c3mrr ["file.txt"]
        false).records.map (fun r => r.type)) = ["dataset"] ∧
    "dataset" ≠ "file" := by
  exact ⟨rfl, by decide⟩

/-- C3 (amended). Every record emitted by `show_file_tree_metadata` has
its metadata `type` field equal to "file" and its metadata `path` field
equal to the matched relative path, while the top-level `type` field of
the record is "dataset" (the `report_type` the code passes). -/
theorem C3_amended_file_record_tagging (mapper : String)
    (store : MetadataStore) (rid : DatasetId) (rv : String)
    (dp : MetadataPath) (mrr : MetadataRootRecord) (pat : MetadataPath)
    (rec : Bool) :
    ∀ r ∈ (show_file_tree_metadata mapper store rid rv dp mrr pat
        rec).records,
      r.type = "dataset" ∧
      lookupLast r.metadata "type" = some (PyVal.str "file") ∧
      ∃ p m, (p, SearchResult.fileMetadata m) ∈
          fileTreeSearchResults mrr ∧
        lookupLast r.metadata "path" = some (PyVal.str (pathStr p)) := by
  intro r hr
  obtain ⟨_, _, _, h4, h5, hex⟩ := mem_show_file_tree_metadata_records
    mapper store rid rv dp mrr pat rec r hr
  exact ⟨h4, h5, hex⟩

/-- Witness for C3 (amended): the concrete file-tree traversal record is
tagged "file" inside its metadata with the matched path, and "dataset"
at top level. -/
theorem C3_amended_file_record_tagging_witness :
    c3rec.type = "dataset" ∧
    lookupLast c3rec.metadata "type" = some (PyVal.str "file") ∧
    lookupLast c3rec.metadata "path" =
      some (PyVal.str (pathStr ["file.txt"])) := by
  have hmem : c3rec ∈ (show_file_tree_metadata "git"
      (MetadataStore.localPath "/s") (DatasetId.uuid ⟨3⟩) "v1" [] c3mrr
      ["file.txt"] false).records := by
    rw [show (show_file_tree_metadata "git" (MetadataStore.localPath
      "/s") (DatasetId.uuid ⟨3⟩) "v1" [] c3mrr ["file.txt"]
      false).records = [c3rec] from rfl]
    exact List.mem_singleton_self _
  have h := C3_amended_file_record_tagging "git"
    (MetadataStore.localPath "/s") (DatasetId.uuid ⟨3⟩) "v1" [] c3mrr
    ["file.txt"] false c3rec hmem
  exact ⟨h.1, h.2.1, by rfl⟩

/-- C5. Per-element lookup misses during dumping are non-fatal: an
unknown UUID yields exactly one error log and no records; an unknown
version inside a UUID's version list, or inside the tree version list,
contributes exactly one error log and is skipped, while every other
requested version before and after it is still processed and its records
kept. -/
theorem C5_lookup_misses_nonfatal :
    (∀ (mapper : String) (store : MetadataStore) (us : UUIDSet)
        (url : UUIDMetadataURL) (rec : Bool),
      us.get_version_list url.uuid = none →
      dump_from_uuid_set mapper store us url rec =
        ([LogEvent.errorUUIDNotFound url.uuid], [])) ∧
    (∀ (mapper : String) (store : MetadataStore) (vl : VersionList)
        (url : UUIDMetadataURL) (rec : Bool) (v : String)
        (vs₁ vs₂ : List String),
      vl.get_versioned_element v = none →
      processUUIDVersions mapper store vl url rec (vs₁ ++ v :: vs₂) =
        ((processUUIDVersions mapper store vl url rec vs₁).1 ++
          LogEvent.errorUUIDVersionNotFound v url.uuid ::
            (processUUIDVersions mapper store vl url rec vs₂).1,
         (processUUIDVersions mapper store vl url rec vs₁).2 ++
          (processUUIDVersions mapper store vl url rec vs₂).2)) ∧
    (∀ (mapper : String) (store : MetadataStore) (tvl : TreeVersionList)
        (url : TreeMetadataURL) (rec : Bool) (v : String)
        (vs₁ vs₂ : List String),
      tvl.get_dataset_tree v = none →
      processTreeVersions mapper store tvl url rec (vs₁ ++ v :: vs₂) =
        ((processTreeVersions mapper store tvl url rec vs₁).1 ++
          LogEvent.errorTreeVersionNotFound v ::
            (processTreeVersions mapper store tvl url rec vs₂).1,
         (processTreeVersions mapper store tvl url rec vs₁).2 ++
          (processTreeVersions mapper store tvl url rec vs₂).2)) := by
  refine ⟨?_, ?_, ?_⟩
  · intro mapper store us url rec h
    simp [dump_from_uuid_set, h]
  · intro mapper store vl url rec v vs₁ vs₂ h
    induction vs₁ with
    | nil => simp [processUUIDVersions, h]
    | cons u tl ih =>
      cases hu : vl.get_versioned_element u with
      | none => simp [processUUIDVersions, hu, ih]
      | some tde =>
        obtain ⟨ts, dpath, mrr⟩ := tde
        simp [processUUIDVersions, hu, ih]
  · intro mapper store tvl url rec v vs₁ vs₂ h
    induction vs₁ with
    | nil => simp [processTreeVersions, h]
    | cons u tl ih =>
      cases hu : tvl.get_dataset_tree u with
      | none => simp [processTreeVersions, hu, ih]
      | some td =>
        obtain ⟨ts, dt⟩ := td
        simp [processTreeVersions, hu, ih]

/-- Witness for C5: an unknown UUID, an unknown version in a UUID's
version list, and an unknown version in the tree version list are each
skipped with one error log while the surrounding versions are
processed. -/
theorem C5_lookup_misses_nonfatal_witness :
    dump_from_uuid_set "git" (MetadataStore.localPath "/s") c5usEmpty
      c5url false = ([LogEvent.errorUUIDNotFound c5url.uuid], []) ∧
    processUUIDVersions "git" (MetadataStore.localPath "/s") c5vl c5url2
      false (["v1"] ++ "v2" :: ["v1"]) =
      ((processUUIDVersions "git" (MetadataStore.localPath "/s") c5vl
          c5url2 false ["v1"]).1 ++
        LogEvent.errorUUIDVersionNotFound "v2" c5url2.uuid ::
        (processUUIDVersions "git" (MetadataStore.localPath "/s") c5vl
          c5url2 false ["v1"]).1,
       (processUUIDVersions "git" (MetadataStore.localPath "/s") c5vl
          c5url2 false ["v1"]).2 ++
        (processUUIDVersions "git" (MetadataStore.localPath "/s") c5vl
          c5url2 false ["v1"]).2) ∧
    processTreeVersions "git" (MetadataStore.localPath "/s") c5tvl c5turl
      false (["v1"] ++ "v2" :: ["v1"]) =
      ((processTreeVersions "git" (MetadataStore.localPath "/s") c5tvl
          c5turl false ["v1"]).1 ++
        LogEvent.errorTreeVersionNotFound "v2" ::
        (processTreeVersions "git" (MetadataStore.localPath "/s") c5tvl
          c5turl false ["v1"]).1,
       (processTreeVersions "git" (MetadataStore.localPath "/s") c5tvl
          c5turl false ["v1"]).2 ++
        (processTreeVersions "git" (MetadataStore.localPath "/s") c5tvl
          c5turl false ["v1"]).2) := by
  refine ⟨C5_lookup_misses_nonfatal.1 "git" (MetadataStore.localPath
      "/s") c5usEmpty c5url false rfl,
    C5_lookup_misses_nonfatal.2.1 "git" (MetadataStore.localPath "/s")
      c5vl c5url2 false "v2" ["v1"] ["v1"] rfl,
    C5_lookup_misses_nonfatal.2.2 "git" (MetadataStore.localPath "/s")
      c5tvl c5turl false "v2" ["v1"] ["v1"] rfl⟩

/-- Witness for C4 (amended): with both index objects present the entry
point does not raise, with the UUID set missing it does. -/
theorem C4_amended_no_metadata_store_witness :
    ((Dump_call "git" (MetadataStore.localPath "/store") (some c4tvl)
        (some ⟨[]⟩) (ParsedMetadataURL.tree none) false).isOk = false ↔
      ((some c4tvl : Option TreeVersionList) = none ∨
        (some (⟨[]⟩ : UUIDSet) : Option UUIDSet) = none)) ∧
    ((Dump_call "git" (MetadataStore.localPath "/store") (some c4tvl)
        none (ParsedMetadataURL.tree none) false).isOk = false ↔
      ((some c4tvl : Option TreeVersionList) = none ∨
        (none : Option UUIDSet) = none)) := by
  exact ⟨(C4_amended_no_metadata_store "git"
      (MetadataStore.localPath "/store") (some c4tvl) (some ⟨[]⟩)
      (ParsedMetadataURL.tree none) false).1,
    (C4_amended_no_metadata_store "git"
      (MetadataStore.localPath "/store") (some c4tvl) none
      (ParsedMetadataURL.tree none) false).1⟩

end Metalad
